import Mathlib

/-
Verification of the dashboard aggregation core of the mpa-minatama
inventory application.  The JavaScript source is shallowly embedded:
rows fetched from the remote store become Lean structures, the pure
aggregation passes (reduce / filter / map chains) become Lean functions
over lists, and the stateful refresh cycle becomes an explicit state
transformer over a record of the displayed aggregates.  Nullable
JavaScript numbers (patterns of the form x.quantity or zero) are
embedded as Option Int with getD 0.
-/

namespace Minatama

/-- A lobster type reference row, selected as id and name
(src/lib/cache.js, src/app/page.jsx). -/
structure LobsterType where
  id : Nat
  name : String
deriving DecidableEq, Repr

/-- A weight class reference row, selected as id and weight_range. -/
structure WeightClass where
  id : Nat
  weight_range : String
deriving DecidableEq, Repr

/-- An inventory row as selected by the dashboard query
(select type_id, quantity in src/app/page.jsx line 133).  The quantity
is Option Int because the code guards every read with a fall back to 0. -/
structure InventoryRow where
  type_id : Nat
  quantity : Option Int
deriving DecidableEq, Repr

/-- A transaction row as selected by the dashboard queries
(src/app/page.jsx lines 134-146): quantity, transaction_type, type_id,
and the calendar components of transaction_date that the aggregation
reads through getFullYear and getMonth (month is 0-based as in JS). -/
structure Transaction where
  transaction_type : String
  quantity : Option Int
  type_id : Nat
  year : Int
  month : Int
deriving DecidableEq, Repr

/-- The reduction of a possibly null quantity, embedding the JS idiom
row.quantity or zero. -/
def rowQty (r : InventoryRow) : Int := r.quantity.getD 0

/-- The same null guard for transaction rows. -/
def txQty (t : Transaction) : Int := t.quantity.getD 0

/-- Total stock: inventoryData.reduce of quantity starting from 0
(src/app/page.jsx lines 155-158). -/
def totalStock (rows : List InventoryRow) : Int :=
  rows.foldl (fun s r => s + rowQty r) 0

/-- Resolution of a type_id against the cached lobster types:
lobsterTypes.find by id, falling back to the label Unknown
(src/app/page.jsx lines 160-161). -/
def resolveTypeName (types : List LobsterType) (tid : Nat) : String :=
  match types.find? (fun t => t.id == tid) with
  | some t => t.name
  | none => "Unknown"

/-- One step of the JS object accumulator acc[name] = (acc[name] or 0) + q:
the first binding for the key is updated in place, a fresh key is
appended, preserving the insertion order that Object.entries reads back. -/
def addToGroup (acc : List (String × Int)) (name : String) (q : Int) :
    List (String × Int) :=
  match acc with
  | [] => [(name, q)]
  | (n, v) :: rest =>
    if n = name then (n, v + q) :: rest else (n, v) :: addToGroup rest name q

/-- Stock by type: inventoryData.reduce grouping by resolved type name and
summing quantity per group (src/app/page.jsx lines 159-170).  The result
models the stockByTypeArray entries as pairs of lobster_type and
total_quantity. -/
def stockByType (types : List LobsterType) (rows : List InventoryRow) :
    List (String × Int) :=
  rows.foldl (fun acc r => addToGroup acc (resolveTypeName types r.type_id) (rowQty r)) []

/-- The sum of the per-group totals of a grouped accumulator. -/
def sumValues (acc : List (String × Int)) : Int :=
  acc.foldl (fun s p => s + p.2) 0

/-- The total recorded for a given key in a grouped accumulator
(0 when the key is absent). -/
def lookupTotal (acc : List (String × Int)) (name : String) : Int :=
  match acc.find? (fun p => p.1 == name) with
  | some p => p.2
  | none => 0

theorem foldl_add_map {α : Type} (f : α → Int) (l : List α) (init : Int) :
    l.foldl (fun s x => s + f x) init = init + (l.map f).sum := by
  induction l generalizing init with
  | nil => simp
  | cons x xs ih => simp only [List.foldl_cons, List.map_cons, List.sum_cons, ih]; ring

theorem sumValues_eq (acc : List (String × Int)) :
    sumValues acc = (acc.map Prod.snd).sum := by
  unfold sumValues
  rw [foldl_add_map]
  simp

theorem totalStock_eq (rows : List InventoryRow) :
    totalStock rows = (rows.map rowQty).sum := by
  unfold totalStock
  rw [foldl_add_map]
  simp

theorem sumValues_addToGroup (acc : List (String × Int)) (name : String) (q : Int) :
    sumValues (addToGroup acc name q) = sumValues acc + q := by
  simp only [sumValues_eq]
  induction acc with
  | nil => simp [addToGroup]
  | cons p rest ih =>
    obtain ⟨n, v⟩ := p
    by_cases h : n = name
    · simp [addToGroup, h]
      ring
    · simp only [addToGroup, if_neg h, List.map_cons, List.sum_cons, ih]
      ring

theorem sumValues_fold (types : List LobsterType) (rows : List InventoryRow)
    (acc : List (String × Int)) :
    sumValues (rows.foldl
        (fun a r => addToGroup a (resolveTypeName types r.type_id) (rowQty r)) acc) =
      sumValues acc + (rows.map rowQty).sum := by
  induction rows generalizing acc with
  | nil => simp
  | cons r rest ih =>
    simp only [List.foldl_cons, List.map_cons, List.sum_cons]
    rw [ih, sumValues_addToGroup]
    ring

/-- C1: For every set of InventoryRow rows, the sum of the per-type totals
produced by the stock-by-type aggregation in fetchDashboardData equals the
total stock computed as the sum of quantity over the same rows: the
grouping is a partition, no row double-counted, no row lost. -/
theorem stockByType_partition (types : List LobsterType) (rows : List InventoryRow) :
    sumValues (stockByType types rows) = totalStock rows := by
  unfold stockByType
  rw [sumValues_fold, totalStock_eq]
  simp [sumValues]

/- ===== C2: outgoing totals ===== -/

/-- The depleting transaction types, as tested by the inclusion checks
on DISTRIBUTE, DEATH and DAMAGED across all three call sites. -/
def isOutgoingType (t : String) : Bool :=
  ["DISTRIBUTE", "DEATH", "DAMAGED"].contains t

/-- Incoming total from the dashboard (src/app/page.jsx lines 181-183 and
223-225): filter to ADD then reduce the quantities. -/
def incomingDashboard (ts : List Transaction) : Int :=
  (ts.filter (fun t => t.transaction_type == "ADD")).foldl (fun s t => s + txQty t) 0

/-- Outgoing total from the dashboard (src/app/page.jsx lines 184-190,
and identically lines 226-232 for each monthly bucket): Math.abs applied
to the reduce of the signed quantities of the depleting rows, that is the
absolute value of the sum, not the sum of absolute values. -/
def outgoingDashboard (ts : List Transaction) : Int :=
  |(ts.filter (fun t => isOutgoingType t.transaction_type)).foldl
      (fun s t => s + txQty t) 0|

/-- Outgoing total from the transactions page (src/app/transaksi/page.jsx
lines 215-220): the reduce adds Math.abs of each depleting quantity, so
here it is the sum of absolute values.  The stock query of that page only
selects transaction_type and quantity; the remaining Transaction fields
are unused by this function. -/
def outgoingTransaksi (ts : List Transaction) : Int :=
  ts.foldl (fun s t => if isOutgoingType t.transaction_type then s + |txQty t| else s) 0

/-- The outgoing total exactly as the claim words it: the sum of the
absolute values of quantity over the rows whose transaction_type is
DISTRIBUTE, DEATH, or DAMAGED. -/
def specOutgoingSumAbs (ts : List Transaction) : Int :=
  ((ts.filter (fun t => isOutgoingType t.transaction_type)).map (fun t => |txQty t|)).sum

theorem foldl_if_add {α : Type} (p : α → Bool) (f : α → Int) (l : List α) (init : Int) :
    l.foldl (fun s x => if p x then s + f x else s) init =
      init + ((l.filter p).map f).sum := by
  induction l generalizing init with
  | nil => simp
  | cons x xs ih =>
    cases hp : p x
    · simp only [List.foldl_cons, List.filter_cons, hp, Bool.false_eq_true, ite_false, ih]
    · simp only [List.foldl_cons, List.filter_cons, hp, ite_true, List.map_cons,
        List.sum_cons, ih]
      ring

/-- A transaction row used only for sign bookkeeping in examples. -/
def mkTx (ty : String) (q : Int) : Transaction :=
  { transaction_type := ty, quantity := some q, type_id := 0, year := 0, month := 0 }

/-- Two DISTRIBUTE rows with quantities 3 and minus 5: a sign mix on which
the dashboard outgoing total (absolute value of the sum, here 2) differs
from the sum of absolute values (here 8) that the claim asserts. -/
def mixedSignTxs : List Transaction := [mkTx "DISTRIBUTE" 3, mkTx "DISTRIBUTE" (-5)]

/-- C2 counterexample: on a mixed-sign set of DISTRIBUTE rows the outgoing
total computed by fetchDashboardData is 2, not the claimed sum of absolute
values 8, so the claim as stated over every sign mix is false. -/
theorem outgoing_mixed_sign_cex :
    outgoingDashboard mixedSignTxs = 2 ∧
    specOutgoingSumAbs mixedSignTxs = 8 ∧
    outgoingDashboard mixedSignTxs ≠ specOutgoingSumAbs mixedSignTxs := by
  refine ⟨by decide, by decide, by decide⟩

/-- C2 amended: the transactions-page outgoing total is the sum of the
absolute values of the depleting quantities for every sign mix, while the
dashboard outgoing totals (this-month and per monthly bucket) are the
absolute value of the signed sum, which agrees with the sum of absolute
values whenever all depleting quantities are nonnegative. -/
theorem outgoing_totals (ts : List Transaction) :
    outgoingTransaksi ts = specOutgoingSumAbs ts ∧
    ((∀ t ∈ ts, isOutgoingType t.transaction_type = true → 0 ≤ txQty t) →
      outgoingDashboard ts = specOutgoingSumAbs ts) := by
  constructor
  · unfold outgoingTransaksi specOutgoingSumAbs
    rw [foldl_if_add]
    simp
  · intro h
    unfold outgoingDashboard specOutgoingSumAbs
    rw [foldl_add_map, zero_add]
    have hmem : ∀ t ∈ ts.filter (fun t => isOutgoingType t.transaction_type),
        0 ≤ txQty t := by
      intro t ht
      have := List.mem_filter.mp ht
      exact h t this.1 this.2
    have hmap : (ts.filter (fun t => isOutgoingType t.transaction_type)).map
          (fun t => |txQty t|) =
        (ts.filter (fun t => isOutgoingType t.transaction_type)).map txQty := by
      apply List.map_congr_left
      intro t ht
      exact abs_of_nonneg (hmem t ht)
    rw [hmap]
    apply abs_of_nonneg
    apply List.sum_nonneg
    intro x hx
    obtain ⟨t, ht, rfl⟩ := List.mem_map.mp hx
    exact hmem t ht

/-- All-nonnegative quantities for the two DISTRIBUTE rows. -/
def nonnegTxs : List Transaction := [mkTx "DISTRIBUTE" 4, mkTx "DEATH" 2, mkTx "ADD" 9]

theorem outgoing_totals_witness :
    outgoingTransaksi nonnegTxs = specOutgoingSumAbs nonnegTxs ∧
    outgoingDashboard nonnegTxs = specOutgoingSumAbs nonnegTxs :=
  ⟨(outgoing_totals nonnegTxs).1, (outgoing_totals nonnegTxs).2 (by decide)⟩

/- ===== C7: unresolvable rows and the Unknown group ===== -/

/-- Stock by type as computed by fetchStockByType on the stock page
(src/app/stok/page.jsx lines 122-147): the accumulator is updated only
when the resolved typeName is truthy, so a row whose type_id finds no
lobster type (or a type whose name is the empty string) is skipped. -/
def stockByTypeStok (types : List LobsterType) (rows : List InventoryRow) :
    List (String × Int) :=
  rows.foldl (fun acc r =>
    match types.find? (fun t => t.id == r.type_id) with
    | some t => if t.name ≠ "" then addToGroup acc t.name (rowQty r) else acc
    | none => acc) []

/-- C7 counterexample: with no cached lobster types, a row of quantity 5
with an unresolvable type_id produces an empty stock-by-type result on the
stock page: the row is dropped, not labeled Unknown, so the claim as
stated over both cited aggregations is false. -/
theorem unknown_dropped_cex :
    stockByTypeStok [] [{ type_id := 99, quantity := some 5 }] = [] ∧
    totalStock [{ type_id := 99, quantity := some 5 }] = 5 ∧
    lookupTotal (stockByTypeStok [] [{ type_id := 99, quantity := some 5 }]) "Unknown" = 0 := by
  refine ⟨by decide, by decide, by decide⟩

theorem lookupTotal_addToGroup (acc : List (String × Int)) (n m : String) (q : Int) :
    lookupTotal (addToGroup acc n q) m = lookupTotal acc m + (if n = m then q else 0) := by
  induction acc with
  | nil =>
    by_cases h : n = m <;> simp [lookupTotal, addToGroup, h]
  | cons p rest ih =>
    obtain ⟨k, v⟩ := p
    by_cases hk : k = n
    · by_cases hm : k = m
      · have hnm : n = m := hk.symm.trans hm
        simp [addToGroup, lookupTotal, hk, hm, hnm]
      · have hnm : ¬ n = m := fun h => hm (hk.trans h)
        simp [addToGroup, lookupTotal, hk, hm, hnm]
    · by_cases hm : k = m
      · have hnm : ¬ n = m := fun h => hk (hm.trans h.symm)
        have hmn : ¬ m = n := fun h => hnm h.symm
        simp [addToGroup, lookupTotal, hk, hm, hnm, hmn]
      · simp only [addToGroup, if_neg hk]
        simp [lookupTotal, hm] at ih ⊢
        exact ih

theorem lookupTotal_fold (types : List LobsterType) (rows : List InventoryRow)
    (acc : List (String × Int)) (m : String) :
    lookupTotal (rows.foldl
        (fun a r => addToGroup a (resolveTypeName types r.type_id) (rowQty r)) acc) m =
      lookupTotal acc m +
        ((rows.filter (fun r => resolveTypeName types r.type_id == m)).map rowQty).sum := by
  induction rows generalizing acc with
  | nil => simp
  | cons r rest ih =>
    simp only [List.foldl_cons, List.filter_cons]
    rw [ih, lookupTotal_addToGroup]
    by_cases h : resolveTypeName types r.type_id = m
    · simp [h]
      ring
    · simp [h]

/-- C7 amended: in the dashboard aggregation of fetchDashboardData every
row whose type_id does not resolve is labeled Unknown and its quantity is
counted: the Unknown group total equals the sum of the quantities of
exactly the rows resolving to Unknown.  (The stock-page fetchStockByType
instead drops unresolvable rows, as the counterexample shows.) -/
theorem stockByType_unknown_counted (types : List LobsterType) (rows : List InventoryRow) :
    lookupTotal (stockByType types rows) "Unknown" =
      ((rows.filter (fun r => resolveTypeName types r.type_id == "Unknown")).map
        rowQty).sum := by
  unfold stockByType
  rw [lookupTotal_fold]
  simp [lookupTotal]

/- ===== C3: the six monthly buckets ===== -/

/-- Leap year rule of the proleptic Gregorian calendar used by JS Date. -/
def isLeap (y : Int) : Bool :=
  (y % 4 == 0 && y % 100 != 0) || (y % 400 == 0)

/-- Number of days of a month given by its 0-based index (0 = January),
as used by JS Date arithmetic. -/
def daysInMonth (y m : Int) : Int :=
  if m = 1 then (if isLeap y then 29 else 28)
  else if m = 3 ∨ m = 5 ∨ m = 8 ∨ m = 10 then 30
  else 31

/-- The year and month read back by getFullYear and getMonth after
date.setMonth(M) on a date with components (y, m, d): JS first normalizes
the requested month with a year carry, then lets a day-of-month past the
end of the target month overflow into the following month.  The day d of
an existing date is at most 31 and every month has at least 28 days, so
the overflow advances at most one month.  Integer division here is the
Euclidean one of Lean, which for the positive divisor 12 coincides with
the floor division of the JS month normalization. -/
def setMonthYM (y M d : Int) : Int × Int :=
  let y1 := y + M / 12
  let m1 := M % 12
  if d ≤ daysInMonth y1 m1 then (y1, m1)
  else if m1 = 11 then (y1 + 1, 0) else (y1, m1 + 1)

/-- The (year, 0-based month) keys of the six chart buckets built by
fetchDashboardData (src/app/page.jsx lines 207-215): for i from 0 to 5 a
fresh copy of the current date (y, m, d) receives setMonth(m - i), the
year and month are read back, and the list is reversed. -/
def monthBuckets (y m d : Int) : List (Int × Int) :=
  ((List.range 6).map (fun i => setMonthYM y (m - (i : Int)) d)).reverse

/-- The monthly series as the spec words it: exactly the 6 consecutive
calendar months ending at the current month (y, m), oldest first. -/
def specMonthBuckets (y m : Int) : List (Int × Int) :=
  ((List.range 6).map (fun i =>
    ((y * 12 + m - (i : Int)) / 12, (y * 12 + m - (i : Int)) % 12))).reverse

/-- C3: on a current date whose day-of-month is 29, 30 or 31 the JS
setMonth overflow breaks the series.  Evaluated at 2025-05-31 the code
produces December 2024, January, March, March, May, May of 2025: March
and May are duplicated and February and April are missing, so the buckets
are not 6 consecutive calendar months ending at the current month.
Months are written 0-based, so (2025, 4) is May 2025. -/
theorem monthBuckets_day31_bug :
    monthBuckets 2025 4 31 =
      [(2024, 11), (2025, 0), (2025, 2), (2025, 2), (2025, 4), (2025, 4)] ∧
    specMonthBuckets 2025 4 =
      [(2024, 11), (2025, 0), (2025, 1), (2025, 2), (2025, 3), (2025, 4)] ∧
    monthBuckets 2025 4 31 ≠ specMonthBuckets 2025 4 := by
  refine ⟨by decide, by decide, by decide⟩

theorem daysInMonth_ge (y m : Int) : 28 ≤ daysInMonth y m := by
  unfold daysInMonth
  split_ifs <;> omega

/-- Supporting fact: on days 1 through 28 no overflow occurs and the code
does build the 6 consecutive months the spec asks for. -/
theorem monthBuckets_eq_spec_of_day_le (y m d : Int) (hd : d ≤ 28) :
    monthBuckets y m d = specMonthBuckets y m := by
  unfold monthBuckets specMonthBuckets
  congr 1
  apply List.map_congr_left
  intro i _
  unfold setMonthYM
  have hle : d ≤ daysInMonth (y + (m - (i : Int)) / 12) ((m - (i : Int)) % 12) :=
    le_trans hd (daysInMonth_ge _ _)
  simp only [hle, if_true]
  rw [Prod.mk.injEq]
  refine ⟨by omega, by omega⟩

/- ===== C4: insufficient-stock rejection ===== -/

/-- The observable outcome of one run of the submitTransaction flow of
the stock page: either a local rejection with an error message thrown
before the remote write, or the manage_inventory remote procedure call. -/
inductive SubmitOutcome where
  | localError : String → SubmitOutcome
  | rpcManageInventory : SubmitOutcome
deriving DecidableEq, Repr

/-- The results of the remote reads feeding submitTransaction: the two id
lookups by name and the inventory quantity read for the resolved pair
(none embeds the PGRST116 no-row case, which the code treats as 0). -/
structure SubmitEnv where
  typeLookup : Except String Nat
  weightClassLookup : Except String Nat
  inventoryQty : Except String (Option Int)

/-- submitTransaction of the stock page (src/app/stok/page.jsx lines
257-316) up to the decision to call manage_inventory: resolve the ids,
then for the depleting types read the current stock and throw before any
write when it is below the requested quantity (or zero). -/
def submitTransaction (lobsterType weightClass : String) (quantity : Int)
    (transactionType : String) (env : SubmitEnv) : SubmitOutcome :=
  match env.typeLookup, env.weightClassLookup with
  | .error _, _ => .localError "Invalid type or weight class"
  | .ok _, .error _ => .localError "Invalid type or weight class"
  | .ok _, .ok _ =>
    if isOutgoingType transactionType then
      match env.inventoryQty with
      | .error e => .localError e
      | .ok q =>
        let currentStock := q.getD 0
        if currentStock < quantity then
          .localError ("Not enough stock: only " ++ toString currentStock ++ " " ++
            lobsterType ++ " (" ++ weightClass ++ ") available")
        else if currentStock = 0 then
          .localError ("No stock available for " ++ lobsterType ++
            " (" ++ weightClass ++ ")")
        else .rpcManageInventory
    else .rpcManageInventory

/-- C4: for a depleting submission whose current inventory quantity is
strictly below the requested quantity, submitTransaction rejects locally
with a message containing the available quantity and manage_inventory is
never called. -/
theorem insufficient_stock_rejected (lt wc ty : String) (qty : Int)
    (tid wid : Nat) (q : Option Int)
    (hty : isOutgoingType ty = true)
    (hstock : q.getD 0 < qty) :
    (∃ msg, submitTransaction lt wc qty ty ⟨.ok tid, .ok wid, .ok q⟩ =
        .localError msg ∧
      ∃ pre post, msg = pre ++ toString (q.getD 0) ++ post) ∧
    submitTransaction lt wc qty ty ⟨.ok tid, .ok wid, .ok q⟩ ≠
      .rpcManageInventory := by
  have hrun : submitTransaction lt wc qty ty ⟨.ok tid, .ok wid, .ok q⟩ =
      .localError ("Not enough stock: only " ++ toString (q.getD 0) ++ " " ++
        lt ++ " (" ++ wc ++ ") available") := by
    unfold submitTransaction
    simp only [hty, if_true, hstock, if_pos]
  refine ⟨⟨_, hrun, "Not enough stock: only ",
    " " ++ lt ++ " (" ++ wc ++ ") available", ?_⟩, ?_⟩
  · simp [String.append_assoc]
  · rw [hrun]
    intro h
    exact SubmitOutcome.noConfusion h

/-- C4 witness: the spec scenario of quantity 5 available and a
DISTRIBUTE of 6 is rejected locally with the 5 named in the message. -/
theorem insufficient_stock_rejected_witness :
    (∃ msg, submitTransaction "Type A" "100-200" 6 "DISTRIBUTE"
        ⟨.ok 1, .ok 2, .ok (some 5)⟩ = .localError msg ∧
      ∃ pre post, msg = pre ++ toString ((some (5 : Int)).getD 0) ++ post) ∧
    submitTransaction "Type A" "100-200" 6 "DISTRIBUTE"
        ⟨.ok 1, .ok 2, .ok (some 5)⟩ ≠ .rpcManageInventory :=
  insufficient_stock_rejected "Type A" "100-200" "DISTRIBUTE" 6 1 2 (some 5)
    (by decide) (by decide)

/- ===== C8: the destination refinement of the form schema ===== -/

/-- The values validated by the zod formSchema of the stock page.  The
optional fields may be absent, embedding the undefined case. -/
structure FormValues where
  lobsterType : String
  weightClass : String
  quantity : Int
  transactionType : String
  destination : Option String
  note : Option String
  transactionDate : String
deriving DecidableEq, Repr

/-- The JS String.prototype.trim: leading and trailing whitespace
removed, embedded structurally over the character list. -/
def jsTrim (s : String) : String :=
  String.mk (((s.data.dropWhile Char.isWhitespace).reverse.dropWhile
    Char.isWhitespace).reverse)

/-- The refinement predicate of the schema: data.destination must be
truthy and its trim nonempty.  An absent or empty destination is falsy in
JS, so both fail the first conjunct. -/
def destinationOk (d : Option String) : Bool :=
  match d with
  | none => false
  | some s => s ≠ "" && jsTrim s ≠ ""

/-- formSchema (src/app/stok/page.jsx lines 57-83): the object checks
(nonempty strings, integer quantity at least 1, enumerated transaction
type, parseable nonempty date) conjoined with the refinement that the
depleting types require a nonblank destination.  The host Date.parse
grammar is not part of this repository, so it is abstracted as the
dateParses argument. -/
def formSchema (dateParses : String → Bool) (v : FormValues) : Bool :=
  decide (1 ≤ v.lobsterType.length) &&
  decide (1 ≤ v.weightClass.length) &&
  decide (1 ≤ v.quantity) &&
  ["ADD", "DISTRIBUTE", "DEATH", "DAMAGED"].contains v.transactionType &&
  decide (1 ≤ v.transactionDate.length) &&
  dateParses v.transactionDate &&
  (if isOutgoingType v.transactionType then destinationOk v.destination else true)

/-- C8: the depleting transaction types reject an absent, empty or
all-whitespace destination regardless of the other fields, while ADD with
an empty destination validates whenever the remaining fields are valid. -/
theorem destination_validation (dp : String → Bool) (v : FormValues) :
    (isOutgoingType v.transactionType = true →
      (v.destination = none ∨ ∃ s, v.destination = some s ∧ jsTrim s = "") →
      formSchema dp v = false) ∧
    (v.transactionType = "ADD" →
      v.destination = some "" →
      1 ≤ v.lobsterType.length → 1 ≤ v.weightClass.length → 1 ≤ v.quantity →
      1 ≤ v.transactionDate.length → dp v.transactionDate = true →
      formSchema dp v = true) := by
  constructor
  · intro hty hdest
    have hdok : destinationOk v.destination = false := by
      rcases hdest with h | ⟨s, hs, htrim⟩
      · rw [h]; rfl
      · rw [hs]
        unfold destinationOk
        by_cases he : s = ""
        · simp [he]
        · simp [he, htrim]
    simp [formSchema, hty, hdok]
  · intro hadd hdest h1 h2 h3 h4 h5
    have hty : isOutgoingType "ADD" = false := by decide
    simp [formSchema, hadd, h1, h2, h3, h4, h5, hty]

/-- A concrete DEATH submission with empty destination. -/
def deathEmptyDest : FormValues :=
  { lobsterType := "Type A", weightClass := "100-200", quantity := 1,
    transactionType := "DEATH", destination := some "", note := none,
    transactionDate := "2024-01-15T10:00" }

/-- The same submission as an ADD. -/
def addEmptyDest : FormValues :=
  { deathEmptyDest with transactionType := "ADD" }

theorem destination_validation_witness :
    formSchema (fun _ => true) deathEmptyDest = false ∧
    formSchema (fun _ => true) addEmptyDest = true :=
  ⟨(destination_validation (fun _ => true) deathEmptyDest).1 (by decide)
      (Or.inr ⟨"", rfl, by decide⟩),
    (destination_validation (fun _ => true) addEmptyDest).2 rfl rfl
      (by decide) (by decide) (by decide) (by decide) rfl⟩

/- ===== C9: the reference data cache ===== -/

/-- The module level cache of src/lib/cache.js: both slots start null. -/
structure CacheState where
  lobsterTypes : Option (List LobsterType)
  weightClasses : Option (List WeightClass)
deriving DecidableEq, Repr

/-- getLobsterTypes (src/lib/cache.js lines 6-15) as a state transformer:
a populated slot is returned with no fetch; otherwise the underlying
fetch runs (its result is the fetch argument, where the inner Option
embeds a null data payload, stored as the empty list) and an error
propagates without being cached.  The Bool records whether the underlying
fetch ran. -/
def getLobsterTypes (st : CacheState)
    (fetch : Except String (Option (List LobsterType))) :
    CacheState × Except String (List LobsterType) × Bool :=
  match st.lobsterTypes with
  | some cached => (st, .ok cached, false)
  | none =>
    match fetch with
    | .error e => (st, .error e, true)
    | .ok data =>
      let stored := data.getD []
      ({ st with lobsterTypes := some stored }, .ok stored, true)

/-- clearCache (src/lib/cache.js lines 28-31): both slots reset to null. -/
def clearCache (_st : CacheState) : CacheState :=
  { lobsterTypes := none, weightClasses := none }

/-- C9: if a call to getLobsterTypes returns successfully, the next call
performs no underlying fetch and returns the same stored sequence, and a
call made right after clearCache always runs the underlying fetch. -/
theorem cache_single_fetch (st : CacheState)
    (f1 f2 f3 : Except String (Option (List LobsterType)))
    (v : List LobsterType)
    (h : (getLobsterTypes st f1).2.1 = .ok v) :
    getLobsterTypes (getLobsterTypes st f1).1 f2 =
      ((getLobsterTypes st f1).1, .ok v, false) ∧
    (getLobsterTypes (clearCache (getLobsterTypes st f1).1) f3).2.2 = true := by
  constructor
  · match hst : st.lobsterTypes with
    | some cached =>
      simp [getLobsterTypes, hst] at h ⊢
      exact h
    | none =>
      match hf : f1 with
      | .error e => simp [getLobsterTypes, hst] at h
      | .ok data =>
        simp [getLobsterTypes, hst] at h ⊢
        exact h
  · cases hf : f3 <;> simp [getLobsterTypes, clearCache]

/-- C9 witness: from a cold cache a successful fetch is stored, the
second call does not fetch, and after clearCache the next call does. -/
theorem cache_single_fetch_witness :
    getLobsterTypes (getLobsterTypes ⟨none, none⟩
        (.ok (some [⟨1, "A"⟩]))).1 (.error "net") =
      ((getLobsterTypes ⟨none, none⟩ (.ok (some [⟨1, "A"⟩]))).1,
        .ok [⟨1, "A"⟩], false) ∧
    (getLobsterTypes (clearCache (getLobsterTypes ⟨none, none⟩
        (.ok (some [⟨1, "A"⟩]))).1) (.ok none)).2.2 = true :=
  cache_single_fetch ⟨none, none⟩ (.ok (some [⟨1, "A"⟩])) (.error "net")
    (.ok none) [⟨1, "A"⟩] rfl

/- ===== C10: trailing-edge debounce coalescing ===== -/

/-- Modelled from the documented contract of the lodash debounce invoked
at src/app/page.jsx lines 259-263 with wait 1000, leading false and
trailing true (lodash itself is an external dependency): every trigger
restarts a timer of w milliseconds, and when the timer expires without a
newer trigger the wrapped function is invoked once.  Given the ascending
trigger times of one timeline this returns the invocation times. -/
def debounceFires (w : Nat) : List Nat → List Nat
  | [] => []
  | [t] => [t + w]
  | t1 :: t2 :: rest =>
    if t2 < t1 + w then debounceFires w (t2 :: rest)
    else (t1 + w) :: debounceFires w (t2 :: rest)

/-- A burst: ascending trigger times with consecutive gaps of at most
300 milliseconds. -/
def burst300 : List Nat → Prop :=
  List.Chain' (fun a b => a ≤ b ∧ b ≤ a + 300)

theorem debounce_burst_aux (w : Nat) (hw : 300 < w) (ts : List Nat)
    (h : ts ≠ []) (hb : burst300 ts) :
    debounceFires w ts = [ts.getLast h + w] ∧ ∀ t ∈ ts, t ≤ ts.getLast h := by
  induction ts with
  | nil => exact absurd rfl h
  | cons t1 rest ih =>
    match rest, hb with
    | [], _ =>
      refine ⟨rfl, ?_⟩
      intro t ht
      simp at ht
      simp [ht]
    | t2 :: rest2, hb =>
      unfold burst300 at hb
      rw [List.chain'_cons] at hb
      obtain ⟨⟨hle, hgap⟩, hb2⟩ := hb
      have hne : t2 :: rest2 ≠ [] := by simp
      obtain ⟨hfire, hmem⟩ := ih hne hb2
      have hlast : (t1 :: t2 :: rest2).getLast h = (t2 :: rest2).getLast hne :=
        List.getLast_cons hne
      constructor
      · unfold debounceFires
        have hlt : t2 < t1 + w := by omega
        rw [if_pos hlt, hfire, hlast]
      · intro t ht
        rw [hlast]
        rcases List.mem_cons.mp ht with h1 | h2
        · subst h1
          exact le_trans hle (hmem t2 (List.mem_cons_self t2 rest2))
        · exact hmem t h2

/-- C10: any nonempty burst of change-feed triggers whose consecutive
gaps are at most 300 milliseconds produces exactly one invocation of the
debounced fetchDashboardData (wait 1000, leading false, trailing true),
scheduled 1000 milliseconds after the last trigger of the burst: no
leading-edge invocation, intermediate triggers discarded. -/
theorem debounce_burst_single_fire (ts : List Nat) (h : ts ≠ [])
    (hb : burst300 ts) :
    debounceFires 1000 ts = [ts.getLast h + 1000] ∧
    ∀ t ∈ ts, t < ts.getLast h + 1000 := by
  obtain ⟨hfire, hmem⟩ := debounce_burst_aux 1000 (by omega) ts h hb
  refine ⟨hfire, fun t ht => ?_⟩
  have := hmem t ht
  omega

/-- C10 witness: five triggers 100 milliseconds apart coalesce into the
single invocation at 1400. -/
theorem debounce_burst_single_fire_witness :
    debounceFires 1000 [0, 100, 200, 300, 400] =
      [([0, 100, 200, 300, 400].getLast (by decide) : Nat) + 1000] ∧
    ∀ t ∈ [0, 100, 200, 300, 400],
      t < ([0, 100, 200, 300, 400].getLast (by decide) : Nat) + 1000 :=
  debounce_burst_single_fire [0, 100, 200, 300, 400] (by decide)
    (by unfold burst300
        simp [List.chain'_cons])

/- ===== C5: all-or-nothing commit of the displayed aggregates ===== -/

/-- The pie data grouping (src/app/page.jsx lines 193-204): all-time
depleting transactions grouped by resolved type name, summing the
absolute value of each quantity. -/
def pieGrouped (types : List LobsterType) (rows : List Transaction) :
    List (String × Int) :=
  rows.foldl (fun acc r => addToGroup acc (resolveTypeName types r.type_id) |txQty r|) []

/-- The en-US long month names produced by toLocaleString for the bucket
labels, indexed by the 0-based month. -/
def monthNames : List String :=
  ["January", "February", "March", "April", "May", "June", "July",
   "August", "September", "October", "November", "December"]

def monthName (m : Int) : String := monthNames.getD m.toNat ""

/-- One monthly chart row: the month label with the Masuk (incoming) and
Keluar (outgoing) totals of its bucket. -/
structure MonthEntry where
  month : String
  masuk : Int
  keluar : Int
deriving DecidableEq, Repr

/-- The monthly chart rows (src/app/page.jsx lines 217-235): for each of
the six buckets of the current date, the six-month transactions are
filtered to the calendar year and month and reduced with the
incoming and outgoing folds. -/
def monthlyChartData (y m d : Int) (rows : List Transaction) : List MonthEntry :=
  (monthBuckets y m d).map (fun b =>
    let monthTx := rows.filter (fun t => t.year == b.1 && t.month == b.2)
    { month := monthName b.2,
      masuk := incomingDashboard monthTx,
      keluar := outgoingDashboard monthTx })

/-- JS object spread update: prev with key k bound to v.  An existing key
is replaced in place, a fresh key is appended, preserving key order. -/
def setKey {α : Type} (m : List (String × α)) (k : String) (v : α) :
    List (String × α) :=
  if (m.find? (fun p => p.1 == k)).isSome then
    m.map (fun p => if p.1 == k then (k, v) else p)
  else m ++ [(k, v)]

/-- The displayed dashboard aggregates held in component state, plus the
error slot. -/
structure DashState where
  totalStock : Int
  stockByType : List (String × Int)
  incomingThisMonth : Int
  outgoingThisMonth : Int
  pieChartData : List (String × Int)
  chartData : List MonthEntry
  weightClasses : List (String × List (String × Int))
  error : Option String
deriving DecidableEq, Repr

/-- The results of the remote reads of one refresh cycle: the two cached
reference fetches, the four concurrently awaited queries, and the
per-type weight class fetch keyed by the resolved type id (rows are
weight_range and quantity pairs). -/
structure FetchResults where
  lobsterTypes : Except String (List LobsterType)
  weightClassesRef : Except String (List WeightClass)
  inventory : Except String (List InventoryRow)
  monthTx : Except String (List Transaction)
  pieTx : Except String (List Transaction)
  monthlyTx : Except String (List Transaction)
  wcFetch : Nat → Except String (List (String × Int))

/-- One run of fetchDashboardData (src/app/page.jsx lines 109-256) as a
state transformer over the displayed aggregates, given the current date
components and the fetch results.  A failure of the cache fetches or of
any of the four awaited queries is thrown before any aggregate setter and
only records the error.  On success the per-type weight class sub-fetches
run first: each one catches its own failure and stores the empty list for
its type (src/app/page.jsx lines 102-105), after which all aggregate
setters run and the error slot is cleared. -/
def fetchDashboardDataStep (y m d : Int) (fr : FetchResults) (st : DashState) :
    DashState :=
  match fr.lobsterTypes with
  | .error e => { st with error := some e }
  | .ok lobsterTypes =>
    match fr.weightClassesRef with
    | .error e => { st with error := some e }
    | .ok _ =>
      match fr.inventory, fr.monthTx, fr.pieTx, fr.monthlyTx with
      | .error e, _, _, _ => { st with error := some e }
      | .ok _, .error e, _, _ => { st with error := some e }
      | .ok _, .ok _, .error e, _ => { st with error := some e }
      | .ok _, .ok _, .ok _, .error e => { st with error := some e }
      | .ok inventoryData, .ok transactionsData, .ok pieData, .ok monthlyData =>
        let stockByTypeArray := stockByType lobsterTypes inventoryData
        let wc := stockByTypeArray.foldl (fun w p =>
          match lobsterTypes.find? (fun t => t.name == p.1) with
          | some t =>
            match fr.wcFetch t.id with
            | .ok rows => setKey w p.1 rows
            | .error _ => setKey w p.1 []
          | none => w) st.weightClasses
        { totalStock := totalStock inventoryData
          stockByType := stockByTypeArray
          incomingThisMonth := incomingDashboard transactionsData
          outgoingThisMonth := outgoingDashboard transactionsData
          pieChartData := pieGrouped lobsterTypes pieData
          chartData := monthlyChartData y m d monthlyData
          weightClasses := wc
          error := none }

/-- The tuple of displayed aggregates of a dashboard state. -/
def aggregatesOf (st : DashState) :=
  (st.totalStock, st.stockByType, st.incomingThisMonth, st.outgoingThisMonth,
    st.pieChartData, st.chartData, st.weightClasses)

/-- The previous good state of the counterexample cycle. -/
def cexPrevState : DashState :=
  { totalStock := 10, stockByType := [("A", 10)], incomingThisMonth := 3,
    outgoingThisMonth := 1, pieChartData := [("A", 1)], chartData := [],
    weightClasses := [("A", [("100-200", 7)])], error := none }

/-- A cycle in which the four awaited queries succeed but the per-type
weight class sub-fetch times out. -/
def cexFetches : FetchResults :=
  { lobsterTypes := .ok [⟨1, "A"⟩], weightClassesRef := .ok [],
    inventory := .ok [{ type_id := 1, quantity := some 4 }],
    monthTx := .ok [], pieTx := .ok [], monthlyTx := .ok [],
    wcFetch := fun _ => .error "Request timed out" }

/-- C5 counterexample: in a refresh cycle where the per-type weight class
sub-fetch returns a remote error, the cycle still commits: the weight
class breakdown is overwritten with the empty list and the total stock is
updated, so the state after the cycle differs from the state before it,
contradicting the claim that no displayed aggregate is updated. -/
theorem wc_error_commits_cex :
    cexFetches.wcFetch 1 = .error "Request timed out" ∧
    (fetchDashboardDataStep 2025 0 15 cexFetches cexPrevState).weightClasses ≠
      cexPrevState.weightClasses ∧
    (fetchDashboardDataStep 2025 0 15 cexFetches cexPrevState).totalStock ≠
      cexPrevState.totalStock := by
  refine ⟨rfl, by decide, by decide⟩

/-- C5 amended: a remote error in any of the six awaited fetches of the
cycle (the two cached reference fetches and the four concurrent queries)
aborts the cycle before any setter, leaving every displayed aggregate
unchanged; only an error in a per-type weight class sub-fetch escapes
this all-or-nothing behavior, being caught locally and storing the empty
breakdown for that type while the other aggregates commit. -/
theorem refresh_all_or_nothing (y m d : Int) (fr : FetchResults) (st : DashState)
    (h : fr.lobsterTypes.isOk = false ∨ fr.weightClassesRef.isOk = false ∨
      fr.inventory.isOk = false ∨ fr.monthTx.isOk = false ∨
      fr.pieTx.isOk = false ∨ fr.monthlyTx.isOk = false) :
    aggregatesOf (fetchDashboardDataStep y m d fr st) = aggregatesOf st := by
  obtain ⟨lt, wcr, inv, mtx, ptx, mox, wcf⟩ := fr
  cases lt <;> cases wcr <;> cases inv <;> cases mtx <;> cases ptx <;> cases mox <;>
    simp_all [fetchDashboardDataStep, aggregatesOf, Except.isOk, Except.toBool]

/-- C5 witness: a cycle whose inventory query fails leaves the
aggregates of the counterexample state untouched. -/
theorem refresh_all_or_nothing_witness :
    aggregatesOf (fetchDashboardDataStep 2025 0 15
      { cexFetches with inventory := .error "net" } cexPrevState) =
      aggregatesOf cexPrevState :=
  refresh_all_or_nothing 2025 0 15 { cexFetches with inventory := .error "net" }
    cexPrevState (Or.inr (Or.inr (Or.inl rfl)))

/- ===== C6: client write paths ===== -/

/-- The write operations a client code path can issue against the remote
store: the manage_inventory remote procedure call, a direct update of the
transactions table, or a direct write of the inventory table. -/
inductive WriteTarget where
  | rpcManageInventory
  | transactionsTable
  | inventoryTable
deriving DecidableEq, Repr

/-- The writes issued by one run of submitTransaction of the stock page:
none when the run throws before the write, otherwise exactly the
manage_inventory call. -/
def submitTransactionWrites (lt wc : String) (qty : Int) (ty : String)
    (env : SubmitEnv) : List WriteTarget :=
  match submitTransaction lt wc qty ty env with
  | .localError _ => []
  | .rpcManageInventory => [WriteTarget.rpcManageInventory]

/-- A transaction row as listed on the transactions page, carrying the
reference ids read by the edit validation (the remote ids are opaque
strings there). -/
structure TxRow where
  id : Nat
  transaction_type : String
  type_id : String
  weight_class_id : String
  quantity : Int
deriving DecidableEq, Repr

/-- The edit form of the transactions page.  The quantity input is a raw
string; its parse is embedded as Option Int, none standing for the empty
or non-numeric input rejected by the isNaN check. -/
structure EditForm where
  transaction_type : String
  type_id : String
  weight_class_id : String
  quantity : Option Int
  transaction_date : String
  destination : String
  notes : String
deriving DecidableEq, Repr

/-- validateStock (src/app/transaksi/page.jsx lines 261-295): fetch the
depleting quantities for the pair, sum their absolute values, sum the ADD
quantities of the other currently listed rows for the same pair, and
reject when the edited quantity plus those is below the outgoing total. -/
def validateStock (txId : Nat) (typeId weightClassId : String)
    (newQuantity : Int) (outgoingFetch : Except String (List Int))
    (transactions : List TxRow) : Except String Unit :=
  match outgoingFetch with
  | .error e => .error e
  | .ok qs =>
    let totalOutgoing := qs.foldl (fun s q => s + |q|) 0
    let currentAdd := (transactions.filter (fun t =>
        t.id != txId && t.transaction_type == "ADD" &&
        t.type_id == typeId && t.weight_class_id == weightClassId)).foldl
      (fun s t => s + t.quantity) 0
    if newQuantity + currentAdd < totalOutgoing then
      .error ("Jumlah tidak cukup. Total keluar: " ++ toString totalOutgoing ++
        ", total masuk lainnya: " ++ toString currentAdd ++ ".")
    else .ok ()

/-- handleEditSubmit (src/app/transaksi/page.jsx lines 298-357): the field
validations, the stock re-validation when the edited row was an ADD, and
then one direct update of the transactions table row.  The ok value names
the write the path issues; no remote procedure is involved. -/
def handleEditSubmit (editing : TxRow) (f : EditForm)
    (outgoingFetch : Except String (List Int)) (transactions : List TxRow) :
    Except String WriteTarget :=
  if f.transaction_type = "" then .error "Jenis transaksi diperlukan"
  else if f.type_id = "" then .error "Jenis lobster diperlukan"
  else if f.weight_class_id = "" then .error "Kelas berat diperlukan"
  else
    match f.quantity with
    | none => .error "Jumlah harus lebih dari 0"
    | some q =>
      if q ≤ 0 then .error "Jumlah harus lebih dari 0"
      else if f.transaction_date = "" then .error "Tanggal transaksi diperlukan"
      else
        match (if editing.transaction_type = "ADD" then
            validateStock editing.id f.type_id f.weight_class_id q
              outgoingFetch transactions
          else .ok ()) with
        | .error e => .error e
        | .ok _ => .ok WriteTarget.transactionsTable

/-- The writes issued by one run of handleEditSubmit: none when a
validation throws, otherwise the direct transactions table update. -/
def handleEditSubmitWrites (editing : TxRow) (f : EditForm)
    (outgoingFetch : Except String (List Int)) (transactions : List TxRow) :
    List WriteTarget :=
  match handleEditSubmit editing f outgoingFetch transactions with
  | .error _ => []
  | .ok w => [w]

/-- A DISTRIBUTE row being edited. -/
def cexEditing : TxRow :=
  { id := 7, transaction_type := "DISTRIBUTE", type_id := "t1",
    weight_class_id := "w1", quantity := 4 }

/-- A fully valid edit of that row. -/
def cexEditForm : EditForm :=
  { transaction_type := "DISTRIBUTE", type_id := "t1", weight_class_id := "w1",
    quantity := some 3, transaction_date := "2024-02-01",
    destination := "Market", notes := "" }

/-- C6 counterexample: a valid run of the transaction-edit path issues a
direct update of the transactions table, not the manage_inventory remote
procedure, so the claim that every client write goes through the single
atomic procedure is false on the edit path. -/
theorem edit_direct_write_cex :
    handleEditSubmitWrites cexEditing cexEditForm (.ok []) [] =
      [WriteTarget.transactionsTable] ∧
    WriteTarget.transactionsTable ≠ WriteTarget.rpcManageInventory := by
  refine ⟨by decide, by decide⟩

theorem handleEditSubmit_ok_eq (editing : TxRow) (f : EditForm)
    (og : Except String (List Int)) (txs : List TxRow) (w : WriteTarget)
    (h : handleEditSubmit editing f og txs = .ok w) :
    w = WriteTarget.transactionsTable := by
  unfold handleEditSubmit at h
  repeat' split at h
  all_goals simp_all

/-- C6 amended: the stock-page Transaction Command issues writes only
through the manage_inventory remote procedure, and the transaction-edit
path of the transactions page issues only a direct update of the
transactions table; no client path writes the inventory table directly. -/
theorem client_write_paths (lt wc ty : String) (qty : Int) (env : SubmitEnv)
    (editing : TxRow) (f : EditForm) (og : Except String (List Int))
    (txs : List TxRow) :
    ((submitTransactionWrites lt wc qty ty env).all
      (fun w => w == WriteTarget.rpcManageInventory) = true) ∧
    ((handleEditSubmitWrites editing f og txs).all
      (fun w => w == WriteTarget.transactionsTable) = true) ∧
    ((submitTransactionWrites lt wc qty ty env).contains
      WriteTarget.inventoryTable = false) ∧
    ((handleEditSubmitWrites editing f og txs).contains
      WriteTarget.inventoryTable = false) := by
  have hedit2 : ∀ w2, handleEditSubmit editing f og txs = .ok w2 →
      w2 = WriteTarget.transactionsTable :=
    fun w2 h => handleEditSubmit_ok_eq editing f og txs w2 h
  refine ⟨?_, ?_, ?_, ?_⟩
  · unfold submitTransactionWrites
    split <;> rfl
  · unfold handleEditSubmitWrites
    split
    · rfl
    · rename_i w2 heq
      rw [hedit2 w2 heq]
      rfl
  · unfold submitTransactionWrites
    split <;> rfl
  · unfold handleEditSubmitWrites
    split
    · rfl
    · rename_i w2 heq
      rw [hedit2 w2 heq]
      rfl

end Minatama
